import Mathlib

/-!
Shallow embedding of the two scripts of this repository:
`scripts/integrations.py` (a ledger publishing run against Coupa, PIEE and
SAM.gov, gated on the presence of enterprise identifiers) and
`scripts/nightly_audit.py` (a nightly collection run over mail, SMS and a
mobile-device inventory into a dated run folder).

External collaborators (the HTTP client, the IMAP client, the Twilio client
and the clock) are passed in as explicit oracles; every file write, log line,
network attempt and the final exit status of a run are recorded in an explicit
outcome record so that theorems can speak about them.
-/

/-- JSON values, as produced by the scripts' json.dump calls. -/
inductive JVal
  | null
  | bool (b : Bool)
  | nat (n : Nat)
  | str (s : String)
  | arr (xs : List JVal)
  | obj (fields : List (String × JVal))

/-- Python truthiness of an optional environment string: an unset variable
(None) and the empty string are both falsy. -/
def truthy : Option String → Bool
  | none => false
  | some s => s != ""

/-- Value of a list of decimal digit characters. -/
def digitsToNat (ds : List Char) : Nat :=
  ds.foldl (fun acc c => acc * 10 + (c.toNat - Char.toNat '0')) 0

/-- Split a character list into its leading run of digits and the rest. -/
def takeDigits : List Char → List Char × List Char
  | [] => ([], [])
  | c :: cs =>
    if c.isDigit then
      let (ds, rest) := takeDigits cs
      (c :: ds, rest)
    else ([], c :: cs)

/-- Python str.strip(): drop leading and trailing whitespace. -/
def pyStrip (s : String) : String :=
  ⟨((s.data.dropWhile Char.isWhitespace).reverse.dropWhile Char.isWhitespace).reverse⟩

/-- Split a character list at every occurrence of a separator character. -/
def splitChar (sep : Char) : List Char → List (List Char)
  | [] => [[]]
  | c :: cs =>
    if c = sep then [] :: splitChar sep cs
    else
      match splitChar sep cs with
      | [] => [[c]]
      | g :: gs => (c :: g) :: gs

/-- Python str.split(sep) for a single-character separator. -/
def pySplit (sep : Char) (s : String) : List String :=
  (splitChar sep s.data).map (fun cs => ⟨cs⟩)

namespace Integrations

/-- One row of ledger.csv as produced by csv.DictReader: each named column is
either present (a string) or absent from the file. -/
structure LedgerRow where
  message_id : Option String := none
  from_ : Option String := none
  amount : Option String := none
  currency : Option String := none
  subject : Option String := none
deriving DecidableEq

/-- load_ledger: when ledger.csv does not exist the ledger is empty, otherwise
it is the parsed row list. -/
def load_ledger (ledgerFile : Option (List LedgerRow)) : List LedgerRow :=
  ledgerFile.getD []

/-- Python float() restricted to the plain decimal forms that occur as ledger
amounts: optional surrounding whitespace, an optional sign, then digits with an
optional fractional part. Any other string raises ValueError, modelled as none.
(Exponent, infinity and NaN spellings are not modelled; no theorem below
evaluates pyFloat on such a string.) -/
def pyFloat (s : String) : Option Rat :=
  let cs := (pyStrip s).data
  let signAndRest : Int × List Char :=
    match cs with
    | '+' :: rest => (1, rest)
    | '-' :: rest => (-1, rest)
    | rest => (1, rest)
  let sgn := signAndRest.1
  let (ip, afterInt) := takeDigits signAndRest.2
  match afterInt with
  | [] =>
    if ip.isEmpty then none
    else some ((sgn * (digitsToNat ip : Int) : Int) : Rat)
  | '.' :: rest =>
    let (fp, afterFrac) := takeDigits rest
    if afterFrac.isEmpty && !(ip.isEmpty && fp.isEmpty) then
      some ((sgn : Rat) *
        mkRat (digitsToNat ip * 10 ^ fp.length + digitsToNat fp) (10 ^ fp.length))
    else none
  | _ => none

/-- float(r.get('amount') or 0): a missing or empty amount cell is coerced to
float(0) = 0, any other string goes through float() and may raise. -/
def rowAmountFloat (r : LedgerRow) : Option Rat :=
  match r.amount with
  | none => some 0
  | some s => if s = "" then some 0 else pyFloat s

/-- sum([float(r.get('amount') or 0) for r in ledger]); none models the
ValueError raised by float() on a non-numeric amount cell. Summation order is
immaterial over exact rationals. -/
def pieeTotalAmount : List LedgerRow → Option Rat
  | [] => some 0
  | r :: rest =>
    match rowAmountFloat r, pieeTotalAmount rest with
    | some a, some s => some (a + s)
    | _, _ => none

/-- The environment variables read by integrations.py; none models an unset
variable. -/
structure Env where
  uei : Option String := none
  cageCode : Option String := none
  dodaacContracting : Option String := none
  dodaacFunding : Option String := none
  payingDodaac : Option String := none
  fedstrip : Option String := none
  financeUnitid : Option String := none
  cagCode : Option String := none
  baCodes : Option String := none
  scfCode : Option String := none
  districtCd : Option String := none
  eps : Option String := none
  coupaApiUrl : Option String := none
  coupaApiKey : Option String := none
  pieeApiUrl : Option String := none
  pieeApiKey : Option String := none
  samApiUrl : Option String := none
  samApiKey : Option String := none

/-- The enterprise identifier block: os.getenv(name, '') for each field. -/
structure Enterprise where
  uei : String
  cage : String
  dodaac_contracting : String
  dodaac_funding : String
  paying_dodaac : String
  fedstrip : String
  finance_unitid : String
  cag_code : String
  ba_codes : String
  scf_code : String
  district_cd : String
  eps : String
deriving DecidableEq

/-- The enterprise dict built at the top of run(). -/
def enterpriseOf (env : Env) : Enterprise :=
  { uei := env.uei.getD ""
    cage := env.cageCode.getD ""
    dodaac_contracting := env.dodaacContracting.getD ""
    dodaac_funding := env.dodaacFunding.getD ""
    paying_dodaac := env.payingDodaac.getD ""
    fedstrip := env.fedstrip.getD ""
    finance_unitid := env.financeUnitid.getD ""
    cag_code := env.cagCode.getD ""
    ba_codes := env.baCodes.getD ""
    scf_code := env.scfCode.getD ""
    district_cd := env.districtCd.getD ""
    eps := env.eps.getD "" }

/-- Validation of the critical enterprise identifiers: 'UEI' is recorded when
enterprise['uei'] is falsy, then 'CAGE_CODE' when enterprise['cage'] is. -/
def missingIds (ent : Enterprise) : List String :=
  (if ent.uei = "" then ["UEI"] else []) ++ (if ent.cage = "" then ["CAGE_CODE"] else [])

/-- The recommended but non-critical identifier names whose value is empty. -/
def warnMissing (ent : Enterprise) : List String :=
  (if ent.dodaac_contracting = "" then ["dodaac_contracting"] else [])
    ++ (if ent.paying_dodaac = "" then ["paying_dodaac"] else [])
    ++ (if ent.fedstrip = "" then ["fedstrip"] else [])
    ++ (if ent.finance_unitid = "" then ["finance_unitid"] else [])

/-- The enterprise block as it appears inside the written JSON documents. -/
def enterpriseJson (ent : Enterprise) : JVal :=
  JVal.obj [("uei", JVal.str ent.uei), ("cage", JVal.str ent.cage),
    ("dodaac_contracting", JVal.str ent.dodaac_contracting),
    ("dodaac_funding", JVal.str ent.dodaac_funding),
    ("paying_dodaac", JVal.str ent.paying_dodaac),
    ("fedstrip", JVal.str ent.fedstrip),
    ("finance_unitid", JVal.str ent.finance_unitid),
    ("cag_code", JVal.str ent.cag_code),
    ("ba_codes", JVal.str ent.ba_codes),
    ("scf_code", JVal.str ent.scf_code),
    ("district_cd", JVal.str ent.district_cd),
    ("eps", JVal.str ent.eps)]

/-- The three publish targets. -/
inductive Target
  | coupa
  | piee
  | sam
deriving DecidableEq

/-- Key under which a target's result is stored in report['results']. -/
def targetKey : Target → String
  | .coupa => "coupa"
  | .piee => "piee"
  | .sam => "sam"

/-- The HTTP world's answer to one POST: either a response with a status code
and body, or a raised transport exception. -/
inductive PostOutcome
  | resp (status : Nat) (body : String)
  | exc (msg : String)

/-- post(): the result dict. requests' resp.ok is status < 400; a transport
exception is caught and reported as an error dict, never propagated. -/
def postResult : PostOutcome → JVal
  | .resp status body =>
    JVal.obj [("ok", JVal.bool (decide (status < 400))),
      ("status", JVal.nat status), ("body", JVal.str body)]
  | .exc msg => JVal.obj [("ok", JVal.bool false), ("error", JVal.str msg)]

/-- Coupa is attempted iff both COUPA_API_URL and COUPA_API_KEY are truthy. -/
def coupaConfigured (env : Env) : Bool := truthy env.coupaApiUrl && truthy env.coupaApiKey

/-- PIEE is attempted iff both PIEE_API_URL and PIEE_API_KEY are truthy. -/
def pieeConfigured (env : Env) : Bool := truthy env.pieeApiUrl && truthy env.pieeApiKey

/-- SAM.gov is attempted iff both SAM_API_URL and SAM_API_KEY are truthy. -/
def samConfigured (env : Env) : Bool := truthy env.samApiUrl && truthy env.samApiKey

/-- Whether a given target has both its URL and key configured. -/
def configured (env : Env) : Target → Bool
  | .coupa => coupaConfigured env
  | .piee => pieeConfigured env
  | .sam => samConfigured env

/-- One line appended to integrations.log and echoed to stdout (the literal
message formatting is plumbing; the carried data is kept). -/
inductive ILog
  | missingIdentifiers (ms : List String)
  | warnRecommended (ms : List String)
  | posting (t : Target)
  | response (t : Target) (r : JVal)
  | skip (t : Target)
  | wroteReport

/-- The minimal error report written when required identifiers are missing:
exactly the fields error, missing and run_ts. -/
def errorDoc (missing : List String) (runTs : String) : JVal :=
  JVal.obj [("error", JVal.str "missing_identifiers"),
    ("missing", JVal.arr (missing.map JVal.str)),
    ("run_ts", JVal.str runTs)]

/-- integrations_report.json as written on the success path. -/
def reportDoc (runTs : String) (ledgerRows : Nat) (ent : Enterprise)
    (results : List (String × JVal)) : JVal :=
  JVal.obj [("run_ts", JVal.str runTs),
    ("counts", JVal.obj [("ledger_rows", JVal.nat ledgerRows)]),
    ("results", JVal.obj results),
    ("enterprise", enterpriseJson ent)]

/-- Observable outcome of one integrations.py run. exitCode none models
termination by an uncaught exception; posts lists the targets actually POSTed
to, in program order; reportFile is the content of integrations_report.json
when it was written. -/
structure Outcome where
  exitCode : Option Nat
  posts : List Target
  results : List (String × JVal)
  reportFile : Option JVal
  logs : List ILog

/-- run(): the whole publish pipeline. The ledger file and the HTTP world are
oracles; the loaded clearing report is never used by the source after loading
and is therefore not modelled. When PIEE is configured and some ledger amount
is non-numeric, the float() call inside the PIEE payload raises an uncaught
ValueError after the 'Posting to PIEE...' log line, so the run dies there. -/
def run (env : Env) (ledgerFile : Option (List LedgerRow)) (runTs : String)
    (postOut : Target → PostOutcome) : Outcome :=
  let ledger := load_ledger ledgerFile
  let ent := enterpriseOf env
  let missing := missingIds ent
  if missing = [] then
    let warnLogs := if warnMissing ent = [] then [] else [ILog.warnRecommended (warnMissing ent)]
    let step1 : List Target × List (String × JVal) × List ILog :=
      if coupaConfigured env then
        let r := postResult (postOut .coupa)
        ([Target.coupa], [("coupa", r)], [ILog.posting .coupa, ILog.response .coupa r])
      else ([], [], [ILog.skip .coupa])
    if pieeConfigured env && (pieeTotalAmount ledger).isNone then
      { exitCode := none, posts := step1.1, results := step1.2.1, reportFile := none,
        logs := warnLogs ++ step1.2.2 ++ [ILog.posting .piee] }
    else
      let step2 : List Target × List (String × JVal) × List ILog :=
        if pieeConfigured env then
          let r := postResult (postOut .piee)
          (step1.1 ++ [Target.piee], step1.2.1 ++ [("piee", r)],
            step1.2.2 ++ [ILog.posting .piee, ILog.response .piee r])
        else (step1.1, step1.2.1, step1.2.2 ++ [ILog.skip .piee])
      let step3 : List Target × List (String × JVal) × List ILog :=
        if samConfigured env then
          let r := postResult (postOut .sam)
          (step2.1 ++ [Target.sam], step2.2.1 ++ [("sam", r)],
            step2.2.2 ++ [ILog.posting .sam, ILog.response .sam r])
        else (step2.1, step2.2.1, step2.2.2 ++ [ILog.skip .sam])
      { exitCode := some 0, posts := step3.1, results := step3.2.1,
        reportFile := some (reportDoc runTs ledger.length ent step3.2.1),
        logs := warnLogs ++ step3.2.2 ++ [ILog.wroteReport] }
  else
    { exitCode := some 3, posts := [], results := [],
      reportFile := some (errorDoc missing runTs),
      logs := [ILog.missingIdentifiers missing] }

end Integrations

namespace NightlyAudit

/-- Gregorian leap year. -/
def isLeap (y : Nat) : Bool := (y % 4 == 0 && y % 100 != 0) || y % 400 == 0

/-- Days in a month of a given year. -/
def daysInMonth (y m : Nat) : Nat :=
  if m = 2 then (if isLeap y then 29 else 28)
  else if m = 4 ∨ m = 6 ∨ m = 9 ∨ m = 11 then 30
  else 31

/-- Whether every character of the string is a decimal digit. -/
def allDigits (s : String) : Bool := s.data.all Char.isDigit

/-- The %d field of CPython strptime: one or two digits, or — per the regex
alternative " [1-9]" — a single space followed by one nonzero digit. Returns
the numeric day value, unvalidated against the month. -/
def dayField (ds : String) : Option Nat :=
  if allDigits ds ∧ 1 ≤ ds.length ∧ ds.length ≤ 2 then some (digitsToNat ds.data)
  else
    match ds.data with
    | [' ', c] => if c.isDigit ∧ c ≠ '0' then some (digitsToNat [c]) else none
    | _ => none

/-- datetime.strptime(s, '%Y-%m-%d').date(): CPython's %Y matches exactly four
digits, %m matches one or two digits, %d matches one or two digits or a space
followed by a nonzero digit, the whole string must be consumed, and the
datetime constructor then requires a positive year, a month 1-12 and a day
valid for that month; any other string raises ValueError, modelled as none.
(A month or two-digit day whose numeric value is out of range is rejected by
the strptime regex already; the model rejects it through the same range
checks, with the same ValueError outcome.) -/
def parseYmd (s : String) : Option (Nat × Nat × Nat) :=
  match pySplit '-' s with
  | [ys, ms, ds] =>
    if allDigits ys ∧ ys.length = 4
        ∧ allDigits ms ∧ 1 ≤ ms.length ∧ ms.length ≤ 2 then
      match dayField ds with
      | some d =>
        let y := digitsToNat ys.data
        let m := digitsToNat ms.data
        if 1 ≤ y ∧ 1 ≤ m ∧ m ≤ 12 ∧ 1 ≤ d ∧ d ≤ daysInMonth y m then some (y, m, d)
        else none
      | none => none
    else none
  | _ => none

/-- Zero-pad a number to two digits. -/
def pad2 (n : Nat) : String := if n < 10 then "0" ++ toString n else toString n

/-- Zero-pad a number to four digits. -/
def pad4 (n : Nat) : String :=
  if n < 10 then "000" ++ toString n
  else if n < 100 then "00" ++ toString n
  else if n < 1000 then "0" ++ toString n
  else toString n

/-- date.isoformat() of a parsed (year, month, day) triple. -/
def isoOfYmd : Nat × Nat × Nat → String
  | (y, m, d) => pad4 y ++ "-" ++ pad2 m ++ "-" ++ pad2 d

/-- The PHONE_NUMBERS env list: split on commas, strip, drop empties, then
append the hardcoded operational number when it is not already present. -/
def phoneNums (raw : String) : List String :=
  let fromEnv := ((pySplit ',' raw).map pyStrip).filter (fun p => p != "")
  if fromEnv.contains "2704018770" then fromEnv else fromEnv ++ ["2704018770"]

/-- The environment variables read by nightly_audit.py; none models an unset
variable. IMAP_PORT only feeds the (elided) IMAP transport. -/
structure Env where
  imapHost : Option String := none
  imapUser : Option String := none
  imapPassword : Option String := none
  twilioSid : Option String := none
  twilioToken : Option String := none
  phoneNumbers : Option String := none
  hpFaxEmail : Option String := none
  appleMdmUrl : Option String := none
  appleMdmKey : Option String := none
  cloudArchiveUrl : Option String := none
  cloudArchiveKey : Option String := none

/-- The Twilio client is constructed and queried iff both TWILIO_SID and
TWILIO_TOKEN are truthy. -/
def twilioConfigured (env : Env) : Bool := truthy env.twilioSid && truthy env.twilioToken

/-- The device GET is attempted iff both APPLE_MDM_API_URL and
APPLE_MDM_API_KEY are truthy. -/
def mdmConfigured (env : Env) : Bool := truthy env.appleMdmUrl && truthy env.appleMdmKey

/-- The archive upload is attempted iff both CLOUD_ARCHIVE_URL and
CLOUD_ARCHIVE_KEY are truthy. -/
def cloudConfigured (env : Env) : Bool := truthy env.cloudArchiveUrl && truthy env.cloudArchiveKey

/-- The device endpoint's behaviour for the single authenticated GET: a JSON
body with a success status, a non-success status with a body, or a raised
transport exception. -/
inductive MdmResp
  | ok (devices : JVal)
  | httpErr (status : Nat) (body : String)
  | exc (msg : String)

/-- fetch_apple_mdm: the pair is (value returned to the caller, whether
devices.json was written). Missing URL or key returns None without any request;
a success response persists the parsed JSON and returns it; a non-success
status or a transport exception returns an error dict and persists nothing. -/
def fetch_apple_mdm (apiUrl apiKey : Option String) (resp : MdmResp) : Option JVal × Bool :=
  if !truthy apiUrl || !truthy apiKey then (none, false)
  else
    match resp with
    | .ok devices => (some devices, true)
    | .httpErr status body =>
      (some (JVal.obj [("error", JVal.str ("status " ++ toString status)),
        ("body", JVal.str body)]), false)
    | .exc msg => (some (JVal.obj [("error", JVal.str msg)]), false)

/-- len(devices) if isinstance(devices, list) else 0. -/
def devicesCount : Option JVal → Nat
  | some (JVal.arr xs) => xs.length
  | _ => 0

/-- Listing the provider's messages for each number in order, flattened; the
provider may raise, and the first exception propagates. -/
def collectSms (listMsgs : String → Except String (List JVal)) :
    List String → Except String (List JVal)
  | [] => Except.ok []
  | n :: rest =>
    match listMsgs n with
    | Except.error e => Except.error e
    | Except.ok ms =>
      match collectSms listMsgs rest with
      | Except.error e => Except.error e
      | Except.ok more => Except.ok (ms ++ more)

/-- fetch_twilio_messages: a missing sid or token returns an empty list with no
provider call and no file write; otherwise every configured number is listed
and sms.json is written with the flattened results. The Bool records whether
sms.json was written; a provider exception is not caught anywhere and
propagates out of the function. -/
def fetch_twilio_messages (sid token : Option String) (nums : List String)
    (listMsgs : String → Except String (List JVal)) : Except String (List JVal × Bool) :=
  if !truthy sid || !truthy token then Except.ok ([], false)
  else
    match collectSms listMsgs nums with
    | Except.error e => Except.error e
    | Except.ok results => Except.ok (results, true)

/-- Lines printed by nightly_audit.py (to stdout or stderr). -/
inductive NPrint
  | invalidSince
  | emailFetchFailed (e : String)
  | uploadStatus (status : Nat)
  | uploadFailed (e : String)
  | done
deriving DecidableEq

/-- External world of one nightly run: the clock values and each external
collaborator's behaviour. mailOutcome is the result of the fetch_emails call
(its internally persisted raw .eml files are out of scope per the spec and are
folded into this oracle); twilio gives each number's message listing. -/
structure World where
  todayIso : String
  generatedTs : String
  mailOutcome : Except String (List JVal)
  twilio : String → Except String (List JVal)
  mdm : MdmResp
  cloud : Except String Nat

/-- CLI arguments of nightly_audit.py. -/
structure Args where
  outputDir : String
  targets : String
  since : Option String := none

/-- Observable outcome of one nightly_audit.py run: the exit status (none
models an uncaught exception), the directories ensured in order, the network
connection attempts made, the files written in the run folder, and the printed
lines. -/
structure Outcome where
  exitCode : Option Nat
  dirs : List String
  connects : List String
  files : List (String × JVal)
  prints : List NPrint

/-- Resolution of the --since argument: an explicit argument must parse as
YYYY-MM-DD, otherwise today's UTC date is used. -/
def resolveSince (args : Args) (w : World) : Option String :=
  match args.since with
  | some s => (parseYmd s).map isoOfYmd
  | none => some w.todayIso

/-- index.json as written at the end of a completed run. -/
def indexDoc (iso genTs : String) (emailsCount smsCount devsCount : Nat) : JVal :=
  JVal.obj [("run_from", JVal.str iso), ("generated_ts", JVal.str genTs),
    ("emails_count", JVal.nat emailsCount), ("sms_count", JVal.nat smsCount),
    ("devices_count", JVal.nat devsCount)]

/-- run(): the whole collection pipeline. The output base directory and its
daily subdirectory are ensured before the --since date is validated; an invalid
date then exits with status 2 before anything else happens. The IMAP connection
is attempted unconditionally (the source constructs IMAPClient before any
configuration check) and a mail failure is caught and printed; a Twilio
exception is uncaught and kills the run before the device fetch and before
index.json is written. -/
def run (args : Args) (env : Env) (w : World) : Outcome :=
  let dirs0 := [args.outputDir, args.outputDir ++ "/daily"]
  match resolveSince args w with
  | none =>
    { exitCode := some 2, dirs := dirs0, connects := [], files := [],
      prints := [NPrint.invalidSince] }
  | some iso =>
    let runFolder := args.outputDir ++ "/daily/from-" ++ iso
    let dirs := dirs0 ++ [runFolder]
    let nums := phoneNums (env.phoneNumbers.getD "")
    let mailStep : List JVal × List NPrint :=
      match w.mailOutcome with
      | Except.ok rs => (rs, [])
      | Except.error e => ([], [NPrint.emailFetchFailed e])
    let twilioConn := if twilioConfigured env then ["twilio"] else []
    match fetch_twilio_messages env.twilioSid env.twilioToken nums w.twilio with
    | Except.error _ =>
      { exitCode := none, dirs := dirs, connects := "imap" :: twilioConn,
        files := [], prints := mailStep.2 }
    | Except.ok smsStep =>
      let files1 := if smsStep.2 then [("sms.json", JVal.arr smsStep.1)] else []
      let devStep := fetch_apple_mdm env.appleMdmUrl env.appleMdmKey w.mdm
      let mdmConn := if mdmConfigured env then ["mdm"] else []
      let files2 := files1 ++ (if devStep.2 then [("devices.json", devStep.1.getD JVal.null)] else [])
      let files3 := files2 ++
        [("index.json",
          indexDoc iso w.generatedTs mailStep.1.length smsStep.1.length (devicesCount devStep.1))]
      let cloudStep : List String × List NPrint :=
        if cloudConfigured env then
          match w.cloud with
          | Except.ok status => (["cloud"], [NPrint.uploadStatus status])
          | Except.error e => (["cloud"], [NPrint.uploadFailed e])
        else ([], [])
      { exitCode := some 0, dirs := dirs,
        connects := "imap" :: (twilioConn ++ mdmConn ++ cloudStep.1),
        files := files3, prints := mailStep.2 ++ cloudStep.2 ++ [NPrint.done] }

end NightlyAudit

/-! Concrete sample inputs used by witnesses and counterexamples. -/

/-- A post oracle that always answers HTTP 200. -/
def post200 : Integrations.Target → Integrations.PostOutcome :=
  fun _ => Integrations.PostOutcome.resp 200 "ok"

/-- An integrations environment with only the required identifiers set. -/
def envGatePass : Integrations.Env := { uei := some "U1", cageCode := some "C1" }

/-- An integrations environment with a CAGE code but no UEI. -/
def envNoUei : Integrations.Env := { cageCode := some "C1" }

/-- An integrations environment passing the gate with only PIEE configured. -/
def envPieeOnly : Integrations.Env :=
  { uei := some "U1", cageCode := some "C1",
    pieeApiUrl := some "https://piee", pieeApiKey := some "pk" }

/-- A ledger row whose amount cell holds a non-numeric string. -/
def rowBadAmount : Integrations.LedgerRow := { amount := some "abc" }

/-- Nightly CLI arguments without a --since argument. -/
def sampleArgs : NightlyAudit.Args := { outputDir := "out", targets := "a@b.c" }

/-- A nightly environment with Twilio and the device inventory configured. -/
def envTwilioMdm : NightlyAudit.Env :=
  { twilioSid := some "sid", twilioToken := some "tok",
    appleMdmUrl := some "https://mdm", appleMdmKey := some "mk" }

/-- A world whose Twilio provider raises on every listing. -/
def worldTwilioDown : NightlyAudit.World :=
  { todayIso := "2026-10-12", generatedTs := "G",
    mailOutcome := Except.ok [],
    twilio := fun _ => Except.error "twilio down",
    mdm := NightlyAudit.MdmResp.ok (JVal.arr []),
    cloud := Except.error "unused" }

/-- A world whose device endpoint answers HTTP 500 and whose other
collaborators succeed with empty results. -/
def worldMdm500 : NightlyAudit.World :=
  { todayIso := "2026-10-12", generatedTs := "G",
    mailOutcome := Except.ok [],
    twilio := fun _ => Except.ok [],
    mdm := NightlyAudit.MdmResp.httpErr 500 "server error",
    cloud := Except.error "unused" }

/-- A world where the mail server refuses the connection and every other
collaborator succeeds with empty results. -/
def worldMailDown : NightlyAudit.World :=
  { todayIso := "2026-10-12", generatedTs := "G",
    mailOutcome := Except.error "conn refused",
    twilio := fun _ => Except.ok [],
    mdm := NightlyAudit.MdmResp.ok (JVal.arr []),
    cloud := Except.error "unused" }

/-- A world where the mail connection fails, the device GET raises a transport
exception, and Twilio succeeds with no messages. -/
def worldMailMdmDown : NightlyAudit.World :=
  { todayIso := "2026-10-12", generatedTs := "G",
    mailOutcome := Except.error "conn refused",
    twilio := fun _ => Except.ok [],
    mdm := NightlyAudit.MdmResp.exc "timeout",
    cloud := Except.error "unused" }

/-! Theorems settling the claims. -/

/-- C1: for every environment in which UEI or CAGE_CODE is unset, the publish
run POSTs to no target, writes an error document holding exactly the fields
error = "missing_identifiers", missing and run_ts, where the missing list names
exactly the missing required identifiers, and terminates with exit status 3. -/
theorem missing_identifier_gate_blocks_publish
    (env : Integrations.Env) (lf : Option (List Integrations.LedgerRow)) (ts : String)
    (p : Integrations.Target → Integrations.PostOutcome)
    (h : env.uei = none ∨ env.cageCode = none) :
    (Integrations.run env lf ts p).posts = []
    ∧ (Integrations.run env lf ts p).exitCode = some 3
    ∧ (Integrations.run env lf ts p).reportFile =
        some (Integrations.errorDoc (Integrations.missingIds (Integrations.enterpriseOf env)) ts)
    ∧ (∀ x, x ∈ Integrations.missingIds (Integrations.enterpriseOf env) ↔
        ((x = "UEI" ∧ (Integrations.enterpriseOf env).uei = "")
          ∨ (x = "CAGE_CODE" ∧ (Integrations.enterpriseOf env).cage = ""))) := by
  have hne : Integrations.missingIds (Integrations.enterpriseOf env) ≠ [] := by
    rcases h with h | h
    · have hu : (Integrations.enterpriseOf env).uei = "" := by
        simp [Integrations.enterpriseOf, h]
      simp [Integrations.missingIds, hu]
    · have hc : (Integrations.enterpriseOf env).cage = "" := by
        simp [Integrations.enterpriseOf, h]
      simp [Integrations.missingIds, hc]
  refine ⟨?_, ?_, ?_, ?_⟩
  · simp [Integrations.run, hne]
  · simp [Integrations.run, hne]
  · simp [Integrations.run, hne]
  · intro x
    by_cases h1 : (Integrations.enterpriseOf env).uei = ""
      <;> by_cases h2 : (Integrations.enterpriseOf env).cage = ""
      <;> simp [Integrations.missingIds, h1, h2]

/-- Witness for C1 at a concrete environment missing the UEI. -/
theorem missing_identifier_gate_blocks_publish_witness :
    (Integrations.run envNoUei none "T0" post200).posts = []
    ∧ (Integrations.run envNoUei none "T0" post200).exitCode = some 3
    ∧ (Integrations.run envNoUei none "T0" post200).reportFile =
        some (Integrations.errorDoc
          (Integrations.missingIds (Integrations.enterpriseOf envNoUei)) "T0")
    ∧ ("UEI" ∈ Integrations.missingIds (Integrations.enterpriseOf envNoUei) ↔
        (("UEI" = "UEI" ∧ (Integrations.enterpriseOf envNoUei).uei = "")
          ∨ ("UEI" = "CAGE_CODE" ∧ (Integrations.enterpriseOf envNoUei).cage = ""))) :=
  have h := missing_identifier_gate_blocks_publish envNoUei none "T0" post200 (Or.inl rfl)
  ⟨h.1, h.2.1, h.2.2.1, h.2.2.2 "UEI"⟩

/-- Helper: run inspects the environment only through the enterprise block and
the three configured-target tests. -/
theorem run_env_congr (e1 e2 : Integrations.Env)
    (lf : Option (List Integrations.LedgerRow)) (ts : String)
    (p : Integrations.Target → Integrations.PostOutcome)
    (h1 : Integrations.enterpriseOf e1 = Integrations.enterpriseOf e2)
    (h2 : Integrations.coupaConfigured e1 = Integrations.coupaConfigured e2)
    (h3 : Integrations.pieeConfigured e1 = Integrations.pieeConfigured e2)
    (h4 : Integrations.samConfigured e1 = Integrations.samConfigured e2) :
    Integrations.run e1 lf ts p = Integrations.run e2 lf ts p := by
  simp only [Integrations.run, h1, h2, h3, h4]

/-- C8: an empty-string UEI or CAGE_CODE behaves exactly like an unset one:
the gate fails, the identifier is listed in the error document's missing list,
the exit status is 3, and the whole run outcome is identical to the run with
the variable unset. -/
theorem empty_identifier_treated_as_unset
    (env : Integrations.Env) (lf : Option (List Integrations.LedgerRow)) (ts : String)
    (p : Integrations.Target → Integrations.PostOutcome) :
    Integrations.run { env with uei := some "" } lf ts p
        = Integrations.run { env with uei := none } lf ts p
    ∧ Integrations.run { env with cageCode := some "" } lf ts p
        = Integrations.run { env with cageCode := none } lf ts p
    ∧ "UEI" ∈ Integrations.missingIds (Integrations.enterpriseOf { env with uei := some "" })
    ∧ "CAGE_CODE" ∈
        Integrations.missingIds (Integrations.enterpriseOf { env with cageCode := some "" })
    ∧ (Integrations.run { env with uei := some "" } lf ts p).exitCode = some 3
    ∧ (Integrations.run { env with uei := some "" } lf ts p).reportFile =
        some (Integrations.errorDoc
          (Integrations.missingIds (Integrations.enterpriseOf { env with uei := some "" })) ts)
    ∧ (Integrations.run { env with cageCode := some "" } lf ts p).exitCode = some 3 := by
  have hu : Integrations.missingIds
      (Integrations.enterpriseOf { env with uei := some "" }) ≠ [] := by
    simp [Integrations.missingIds, Integrations.enterpriseOf]
  have hc : Integrations.missingIds
      (Integrations.enterpriseOf { env with cageCode := some "" }) ≠ [] := by
    simp [Integrations.missingIds, Integrations.enterpriseOf]
  refine ⟨run_env_congr _ _ lf ts p rfl rfl rfl rfl,
    run_env_congr _ _ lf ts p rfl rfl rfl rfl, ?_, ?_, ?_, ?_, ?_⟩
  · simp [Integrations.missingIds, Integrations.enterpriseOf]
  · simp [Integrations.missingIds, Integrations.enterpriseOf]
  · simp [Integrations.run, hu]
  · simp [Integrations.run, hu]
  · simp [Integrations.run, hc]

/-- C9: a missing ledger.csv is not an error: load_ledger yields the empty
ledger, the run is identical to a run over an existing empty ledger file, and
when the gate passes the run exits 0 and the written report records
counts.ledger_rows = 0. -/
theorem missing_ledger_file_behaves_as_empty
    (env : Integrations.Env) (ts : String)
    (p : Integrations.Target → Integrations.PostOutcome) :
    Integrations.load_ledger none = []
    ∧ Integrations.run env none ts p = Integrations.run env (some []) ts p
    ∧ (Integrations.missingIds (Integrations.enterpriseOf env) = [] →
        (Integrations.run env none ts p).exitCode = some 0
        ∧ (Integrations.run env none ts p).reportFile =
            some (Integrations.reportDoc ts 0 (Integrations.enterpriseOf env)
              (Integrations.run env none ts p).results)) := by
  refine ⟨rfl, rfl, ?_⟩
  intro hgate
  constructor
  · simp [Integrations.run, hgate, Integrations.load_ledger, Integrations.pieeTotalAmount,
      Option.isNone]
  · simp [Integrations.run, hgate, Integrations.load_ledger, Integrations.pieeTotalAmount,
      Option.isNone]

/-- Witness for C9 at a concrete gate-passing environment. -/
theorem missing_ledger_file_behaves_as_empty_witness :
    (Integrations.run envGatePass none "T0" post200).exitCode = some 0
    ∧ (Integrations.run envGatePass none "T0" post200).reportFile =
        some (Integrations.reportDoc "T0" 0 (Integrations.enterpriseOf envGatePass)
          (Integrations.run envGatePass none "T0" post200).results) :=
  (missing_ledger_file_behaves_as_empty envGatePass "T0" post200).2.2 (by decide)

/-- C3 counterexample: a row whose amount is the non-numeric string "abc"
makes the PIEE total-amount aggregation raise (float() raises ValueError), and
with PIEE configured the whole publish run dies on that uncaught exception —
refuting the claim that the aggregation never raises and that non-numeric
amounts contribute 0. -/
theorem piee_total_raises_on_nonnumeric_amount :
    Integrations.pieeTotalAmount [rowBadAmount] = none
    ∧ (Integrations.run envPieeOnly (some [rowBadAmount]) "T0" post200).exitCode = none := by
  exact ⟨rfl, rfl⟩

/-- C3 amended: the aggregation of a ledger of zero rows is 0 and raises
nothing, and every row whose amount field is missing or the empty string
contributes 0; however a row whose amount is a non-empty non-numeric string
raises ValueError and aborts the aggregation (see the counterexample). -/
theorem piee_total_zero_rows_and_blank_amounts :
    Integrations.pieeTotalAmount [] = some 0
    ∧ ∀ (r : Integrations.LedgerRow) (rest : List Integrations.LedgerRow),
        (r.amount = none ∨ r.amount = some "") →
        Integrations.pieeTotalAmount (r :: rest) = Integrations.pieeTotalAmount rest := by
  refine ⟨rfl, ?_⟩
  intro r rest h
  have hr : Integrations.rowAmountFloat r = some 0 := by
    rcases h with h | h <;> simp [Integrations.rowAmountFloat, h]
  simp only [Integrations.pieeTotalAmount, hr]
  cases hrest : Integrations.pieeTotalAmount rest with
  | none => rfl
  | some s => simp

/-- Witness for the amended C3 at a row with a missing amount cell. -/
theorem piee_total_zero_rows_and_blank_amounts_witness :
    Integrations.pieeTotalAmount [{ : Integrations.LedgerRow}] =
      Integrations.pieeTotalAmount [] :=
  piee_total_zero_rows_and_blank_amounts.2 { } [] (Or.inl rfl)

/-- C6 counterexample: with the gate passed, PIEE configured and a ledger row
whose amount is non-numeric, the run dies while building the PIEE payload: the
unconfigured SAM target never gets its skip line and the run does not exit
with status 0 — refuting the claim that once the gate passed an unconfigured
target's skip is always logged and the run always exits 0 regardless of the
other targets' outcomes. -/
theorem unconfigured_target_skip_lost_on_crash :
    Integrations.samConfigured envPieeOnly = false
    ∧ Integrations.missingIds (Integrations.enterpriseOf envPieeOnly) = []
    ∧ (Integrations.run envPieeOnly (some [rowBadAmount]) "T0" post200).exitCode ≠ some 0
    ∧ Integrations.ILog.skip Integrations.Target.sam
        ∉ (Integrations.run envPieeOnly (some [rowBadAmount]) "T0" post200).logs := by
  refine ⟨by decide, by decide, by decide, ?_⟩
  have hlogs : (Integrations.run envPieeOnly (some [rowBadAmount]) "T0" post200).logs
      = [Integrations.ILog.warnRecommended
          ["dodaac_contracting", "paying_dodaac", "fedstrip", "finance_unitid"],
        Integrations.ILog.skip Integrations.Target.coupa,
        Integrations.ILog.posting Integrations.Target.piee] := rfl
  rw [hlogs]
  simp

/-- C6 amended: for each publish target whose URL or key is absent, no POST is
ever sent to it; and provided the gate passed and the PIEE payload aggregation
does not raise, a skip line is logged for it, its key is absent from the
report's results mapping, and the run still exits with status 0 regardless of
the other targets' outcomes. When a configured PIEE meets a non-numeric ledger
amount the run instead dies mid-way, before later targets' skip lines and
before any exit status (see the counterexample). -/
theorem unconfigured_target_skipped
    (env : Integrations.Env) (lf : Option (List Integrations.LedgerRow)) (ts : String)
    (p : Integrations.Target → Integrations.PostOutcome)
    (hgate : Integrations.missingIds (Integrations.enterpriseOf env) = [])
    (hpiee : Integrations.pieeConfigured env = true →
      (Integrations.pieeTotalAmount (Integrations.load_ledger lf)).isSome = true)
    (t : Integrations.Target)
    (ht : Integrations.configured env t = false) :
    t ∉ (Integrations.run env lf ts p).posts
    ∧ Integrations.ILog.skip t ∈ (Integrations.run env lf ts p).logs
    ∧ (Integrations.run env lf ts p).results.lookup (Integrations.targetKey t) = none
    ∧ (Integrations.run env lf ts p).exitCode = some 0 := by
  cases hp : Integrations.pieeConfigured env with
  | false =>
    cases t with
    | coupa =>
      simp only [Integrations.configured] at ht
      cases hs : Integrations.samConfigured env <;>
        simp [Integrations.run, hgate, hp, hs, ht, Integrations.targetKey, List.lookup]
    | piee =>
      cases hc : Integrations.coupaConfigured env <;>
        cases hs : Integrations.samConfigured env <;>
          simp [Integrations.run, hgate, hp, hc, hs, Integrations.targetKey, List.lookup]
    | sam =>
      simp only [Integrations.configured] at ht
      cases hc : Integrations.coupaConfigured env <;>
        simp [Integrations.run, hgate, hp, hc, ht, Integrations.targetKey, List.lookup]
  | true =>
    have hnone : (Integrations.pieeTotalAmount (Integrations.load_ledger lf)).isNone = false := by
      have h2 := hpiee hp
      cases ho : Integrations.pieeTotalAmount (Integrations.load_ledger lf) with
      | none => rw [ho] at h2; simp at h2
      | some a => simp
    cases t with
    | coupa =>
      simp only [Integrations.configured] at ht
      cases hs : Integrations.samConfigured env <;>
        simp [Integrations.run, hgate, hp, hnone, hs, ht, Integrations.targetKey, List.lookup]
    | piee =>
      simp only [Integrations.configured] at ht
      rw [ht] at hp
      simp at hp
    | sam =>
      simp only [Integrations.configured] at ht
      cases hc : Integrations.coupaConfigured env <;>
        simp [Integrations.run, hgate, hp, hnone, hc, ht, Integrations.targetKey, List.lookup]

/-- Witness for C6: with only the gate identifiers configured, Coupa is
skipped and the run exits 0. -/
theorem unconfigured_target_skipped_witness :
    Integrations.Target.coupa ∉ (Integrations.run envGatePass (some []) "T0" post200).posts
    ∧ Integrations.ILog.skip Integrations.Target.coupa
        ∈ (Integrations.run envGatePass (some []) "T0" post200).logs
    ∧ (Integrations.run envGatePass (some []) "T0" post200).results.lookup
        (Integrations.targetKey Integrations.Target.coupa) = none
    ∧ (Integrations.run envGatePass (some []) "T0" post200).exitCode = some 0 :=
  unconfigured_target_skipped envGatePass (some []) "T0" post200 (by decide) (by decide)
    Integrations.Target.coupa (by decide)

/-- C2 counterexample: with Twilio configured and its provider raising, the
exception is not caught anywhere: the collection run dies on it (no exit
status), the device inventory is never fetched and index.json is never
written — refuting the claim that a failure inside any single collector is
caught and cannot abort the other collectors or the run. -/
theorem sms_collector_failure_aborts_run :
    (NightlyAudit.run sampleArgs envTwilioMdm worldTwilioDown).exitCode = none
    ∧ "mdm" ∉ (NightlyAudit.run sampleArgs envTwilioMdm worldTwilioDown).connects
    ∧ "index.json" ∉
        ((NightlyAudit.run sampleArgs envTwilioMdm worldTwilioDown).files.map Prod.fst) :=
  ⟨rfl, by decide, by decide⟩

/-- C2 amended: a failure inside the mail collector or the device-inventory
collector is caught and logged and aborts neither the other collectors nor the
run — the mail result becomes empty, the device result becomes an explicit
error object, index.json is still written and the run exits 0; a failure
inside the SMS collector however is not caught and aborts the run (see the
counterexample). -/
theorem mail_and_mdm_failures_are_contained
    (args : NightlyAudit.Args) (env : NightlyAudit.Env) (w : NightlyAudit.World)
    (e m : String) (ms : List JVal)
    (hsince : args.since = none)
    (hmail : w.mailOutcome = Except.error e)
    (hmdm : w.mdm = NightlyAudit.MdmResp.exc m)
    (hmcfg : NightlyAudit.mdmConfigured env = true)
    (htcfg : NightlyAudit.twilioConfigured env = true)
    (hsms : NightlyAudit.collectSms w.twilio
      (NightlyAudit.phoneNums (env.phoneNumbers.getD "")) = Except.ok ms) :
    (NightlyAudit.run args env w).exitCode = some 0
    ∧ NightlyAudit.NPrint.emailFetchFailed e ∈ (NightlyAudit.run args env w).prints
    ∧ (NightlyAudit.run args env w).files.lookup "index.json" =
        some (NightlyAudit.indexDoc w.todayIso w.generatedTs 0 ms.length 0)
    ∧ (NightlyAudit.fetch_apple_mdm env.appleMdmUrl env.appleMdmKey w.mdm).1 =
        some (JVal.obj [("error", JVal.str m)]) := by
  have hres : NightlyAudit.resolveSince args w = some w.todayIso := by
    simp [NightlyAudit.resolveSince, hsince]
  simp only [NightlyAudit.twilioConfigured, Bool.and_eq_true] at htcfg
  simp only [NightlyAudit.mdmConfigured, Bool.and_eq_true] at hmcfg
  have hfetch : NightlyAudit.fetch_twilio_messages env.twilioSid env.twilioToken
      (NightlyAudit.phoneNums (env.phoneNumbers.getD "")) w.twilio = Except.ok (ms, true) := by
    simp [NightlyAudit.fetch_twilio_messages, htcfg.1, htcfg.2, hsms]
  have hdev : NightlyAudit.fetch_apple_mdm env.appleMdmUrl env.appleMdmKey w.mdm =
      (some (JVal.obj [("error", JVal.str m)]), false) := by
    simp [NightlyAudit.fetch_apple_mdm, hmdm, hmcfg.1, hmcfg.2]
  refine ⟨?_, ?_, ?_, ?_⟩
  · simp [NightlyAudit.run, hres, hfetch, hmail, hdev]
  · simp [NightlyAudit.run, hres, hfetch, hmail, hdev]
  · simp [NightlyAudit.run, hres, hfetch, hmail, hdev, NightlyAudit.devicesCount,
      NightlyAudit.indexDoc, List.lookup]
  · rw [hdev]

/-- Witness for the amended C2 at a concrete world where mail and the device
endpoint fail while Twilio succeeds with no messages. -/
theorem mail_and_mdm_failures_are_contained_witness :
    (NightlyAudit.run sampleArgs envTwilioMdm worldMailMdmDown).exitCode = some 0
    ∧ NightlyAudit.NPrint.emailFetchFailed "conn refused"
        ∈ (NightlyAudit.run sampleArgs envTwilioMdm worldMailMdmDown).prints
    ∧ (NightlyAudit.run sampleArgs envTwilioMdm worldMailMdmDown).files.lookup "index.json" =
        some (NightlyAudit.indexDoc worldMailMdmDown.todayIso worldMailMdmDown.generatedTs
          0 (List.length ([] : List JVal)) 0)
    ∧ (NightlyAudit.fetch_apple_mdm envTwilioMdm.appleMdmUrl envTwilioMdm.appleMdmKey
        worldMailMdmDown.mdm).1 = some (JVal.obj [("error", JVal.str "timeout")]) :=
  mail_and_mdm_failures_are_contained sampleArgs envTwilioMdm worldMailMdmDown
    "conn refused" "timeout" [] rfl rfl rfl (by decide) (by decide) rfl

/-- C4 counterexample: on a device-inventory HTTP 500 the collector returns an
error object and the index records 0 devices, but no devices.json artifact is
written at all (the only files written are sms.json and index.json) — refuting
the claim that the persisted device artifact contains the error object. -/
theorem device_http_error_writes_no_artifact :
    "devices.json" ∉ ((NightlyAudit.run sampleArgs envTwilioMdm worldMdm500).files.map Prod.fst)
    ∧ ((NightlyAudit.run sampleArgs envTwilioMdm worldMdm500).files.map Prod.fst)
        = ["sms.json", "index.json"] :=
  ⟨by decide, rfl⟩

/-- C4 amended: a device-inventory fetch answering a non-success HTTP status
returns a structured error object (not a list), the index records a device
count of 0, and no devices.json artifact is written in the run workspace —
devices.json is written only on success — so the failure is distinguishable
from a genuine empty device list by the returned error object and by the
absence of the artifact, not by an error object inside the artifact. -/
theorem device_fetch_http_error_contained
    (args : NightlyAudit.Args) (env : NightlyAudit.Env) (w : NightlyAudit.World)
    (status : Nat) (body : String) (es ms : List JVal)
    (hsince : args.since = none)
    (hmail : w.mailOutcome = Except.ok es)
    (hmdm : w.mdm = NightlyAudit.MdmResp.httpErr status body)
    (hmcfg : NightlyAudit.mdmConfigured env = true)
    (htcfg : NightlyAudit.twilioConfigured env = true)
    (hsms : NightlyAudit.collectSms w.twilio
      (NightlyAudit.phoneNums (env.phoneNumbers.getD "")) = Except.ok ms) :
    (NightlyAudit.fetch_apple_mdm env.appleMdmUrl env.appleMdmKey w.mdm).1 =
        some (JVal.obj [("error", JVal.str ("status " ++ toString status)),
          ("body", JVal.str body)])
    ∧ (∀ xs, (NightlyAudit.fetch_apple_mdm env.appleMdmUrl env.appleMdmKey w.mdm).1
        ≠ some (JVal.arr xs))
    ∧ "devices.json" ∉ ((NightlyAudit.run args env w).files.map Prod.fst)
    ∧ (NightlyAudit.run args env w).files.lookup "index.json" =
        some (NightlyAudit.indexDoc w.todayIso w.generatedTs es.length ms.length 0)
    ∧ (NightlyAudit.run args env w).exitCode = some 0 := by
  have hres : NightlyAudit.resolveSince args w = some w.todayIso := by
    simp [NightlyAudit.resolveSince, hsince]
  simp only [NightlyAudit.twilioConfigured, Bool.and_eq_true] at htcfg
  simp only [NightlyAudit.mdmConfigured, Bool.and_eq_true] at hmcfg
  have hfetch : NightlyAudit.fetch_twilio_messages env.twilioSid env.twilioToken
      (NightlyAudit.phoneNums (env.phoneNumbers.getD "")) w.twilio = Except.ok (ms, true) := by
    simp [NightlyAudit.fetch_twilio_messages, htcfg.1, htcfg.2, hsms]
  have hdev : NightlyAudit.fetch_apple_mdm env.appleMdmUrl env.appleMdmKey w.mdm =
      (some (JVal.obj [("error", JVal.str ("status " ++ toString status)),
        ("body", JVal.str body)]), false) := by
    simp [NightlyAudit.fetch_apple_mdm, hmdm, hmcfg.1, hmcfg.2]
  refine ⟨by rw [hdev], ?_, ?_, ?_, ?_⟩
  · intro xs
    rw [hdev]
    simp
  · simp [NightlyAudit.run, hres, hfetch, hmail, hdev]
  · simp [NightlyAudit.run, hres, hfetch, hmail, hdev, NightlyAudit.devicesCount,
      NightlyAudit.indexDoc, List.lookup]
  · simp [NightlyAudit.run, hres, hfetch, hmail, hdev]

/-- Witness for the amended C4 at a concrete world answering HTTP 500. -/
theorem device_fetch_http_error_contained_witness :
    (NightlyAudit.fetch_apple_mdm envTwilioMdm.appleMdmUrl envTwilioMdm.appleMdmKey
        worldMdm500.mdm).1 =
      some (JVal.obj [("error", JVal.str ("status " ++ toString 500)),
        ("body", JVal.str "server error")])
    ∧ (NightlyAudit.fetch_apple_mdm envTwilioMdm.appleMdmUrl envTwilioMdm.appleMdmKey
        worldMdm500.mdm).1 ≠ some (JVal.arr [])
    ∧ "devices.json" ∉ ((NightlyAudit.run sampleArgs envTwilioMdm worldMdm500).files.map Prod.fst)
    ∧ (NightlyAudit.run sampleArgs envTwilioMdm worldMdm500).files.lookup "index.json" =
        some (NightlyAudit.indexDoc worldMdm500.todayIso worldMdm500.generatedTs
          (List.length ([] : List JVal)) (List.length ([] : List JVal)) 0)
    ∧ (NightlyAudit.run sampleArgs envTwilioMdm worldMdm500).exitCode = some 0 :=
  have h := device_fetch_http_error_contained sampleArgs envTwilioMdm worldMdm500 500
    "server error" [] [] rfl rfl rfl (by decide) (by decide) rfl
  ⟨h.1, h.2.1 [], h.2.2.1, h.2.2.2.1, h.2.2.2.2⟩

/-- C7 counterexample: with no mail configuration at all the mail source is
not skipped — the IMAP connection is still attempted (IMAPClient is
constructed before any configuration check) — and the run prints no skip line
at any level for any unconfigured source — refuting the claim that an
unconfigured source is skipped without a connection attempt and that the skip
is logged at info level. -/
theorem unconfigured_mail_still_attempts_connection :
    "imap" ∈ (NightlyAudit.run sampleArgs { } worldMailDown).connects
    ∧ (NightlyAudit.run sampleArgs { } worldMailDown).prints
        = [NightlyAudit.NPrint.emailFetchFailed "conn refused", NightlyAudit.NPrint.done] :=
  ⟨by decide, rfl⟩

/-- C7 amended: absence of the SMS credentials or of the device-inventory
URL/key causes that source to be skipped without any provider connection,
yielding an empty SMS list and a None device result (both counted 0 in the
index) — but no skip line is logged; the mail source however is always
attempted regardless of configuration, and an unconfigured mail source shows
up as a failed connection attempt whose exception is caught, leaving an empty
mail result. -/
theorem unconfigured_sources_skip_without_connection
    (args : NightlyAudit.Args) (env : NightlyAudit.Env) (w : NightlyAudit.World) (e : String)
    (hsince : args.since = none)
    (htw : NightlyAudit.twilioConfigured env = false)
    (hmdm : NightlyAudit.mdmConfigured env = false)
    (hmail : w.mailOutcome = Except.error e) :
    NightlyAudit.fetch_twilio_messages env.twilioSid env.twilioToken
        (NightlyAudit.phoneNums (env.phoneNumbers.getD "")) w.twilio = Except.ok ([], false)
    ∧ NightlyAudit.fetch_apple_mdm env.appleMdmUrl env.appleMdmKey w.mdm = (none, false)
    ∧ "twilio" ∉ (NightlyAudit.run args env w).connects
    ∧ "mdm" ∉ (NightlyAudit.run args env w).connects
    ∧ "imap" ∈ (NightlyAudit.run args env w).connects
    ∧ (NightlyAudit.run args env w).exitCode = some 0
    ∧ (NightlyAudit.run args env w).files.lookup "index.json" =
        some (NightlyAudit.indexDoc w.todayIso w.generatedTs 0 0 0) := by
  have hres : NightlyAudit.resolveSince args w = some w.todayIso := by
    simp [NightlyAudit.resolveSince, hsince]
  have hcondT : (!truthy env.twilioSid || !truthy env.twilioToken) = true := by
    cases ha : truthy env.twilioSid <;> cases hb : truthy env.twilioToken <;>
      simp_all [NightlyAudit.twilioConfigured]
  have hcondM : (!truthy env.appleMdmUrl || !truthy env.appleMdmKey) = true := by
    cases ha : truthy env.appleMdmUrl <;> cases hb : truthy env.appleMdmKey <;>
      simp_all [NightlyAudit.mdmConfigured]
  have hfetch : NightlyAudit.fetch_twilio_messages env.twilioSid env.twilioToken
      (NightlyAudit.phoneNums (env.phoneNumbers.getD "")) w.twilio = Except.ok ([], false) := by
    simp [NightlyAudit.fetch_twilio_messages, hcondT]
  have hdev : NightlyAudit.fetch_apple_mdm env.appleMdmUrl env.appleMdmKey w.mdm =
      (none, false) := by
    simp [NightlyAudit.fetch_apple_mdm, hcondM]
  refine ⟨hfetch, hdev, ?_, ?_, ?_, ?_, ?_⟩ <;>
    cases hcl : NightlyAudit.cloudConfigured env <;>
      cases hwc : w.cloud <;>
        simp [NightlyAudit.run, hres, hfetch, hmail, hdev, htw, hmdm, hcl, hwc,
          NightlyAudit.devicesCount, NightlyAudit.indexDoc, List.lookup]

/-- Witness for the amended C7 at an entirely unconfigured environment. -/
theorem unconfigured_sources_skip_without_connection_witness :
    NightlyAudit.fetch_twilio_messages ({ } : NightlyAudit.Env).twilioSid
        ({ } : NightlyAudit.Env).twilioToken
        (NightlyAudit.phoneNums (({ } : NightlyAudit.Env).phoneNumbers.getD ""))
        worldMailDown.twilio = Except.ok ([], false)
    ∧ NightlyAudit.fetch_apple_mdm ({ } : NightlyAudit.Env).appleMdmUrl
        ({ } : NightlyAudit.Env).appleMdmKey worldMailDown.mdm = (none, false)
    ∧ "twilio" ∉ (NightlyAudit.run sampleArgs { } worldMailDown).connects
    ∧ "mdm" ∉ (NightlyAudit.run sampleArgs { } worldMailDown).connects
    ∧ "imap" ∈ (NightlyAudit.run sampleArgs { } worldMailDown).connects
    ∧ (NightlyAudit.run sampleArgs { } worldMailDown).exitCode = some 0
    ∧ (NightlyAudit.run sampleArgs { } worldMailDown).files.lookup "index.json" =
        some (NightlyAudit.indexDoc worldMailDown.todayIso worldMailDown.generatedTs 0 0 0) :=
  unconfigured_sources_skip_without_connection sampleArgs { } worldMailDown "conn refused"
    rfl rfl rfl rfl

/-- C10: sms.json is written exactly when both Twilio credentials are
configured (given the provider listing succeeds): with either credential
absent the fetch returns an empty list and writes no file; with both present
the flattened messages are written, and zero found messages yield an sms.json
containing an empty list — so the presence of the artifact distinguishes an
unconfigured source from a configured source with no messages. -/
theorem sms_artifact_iff_configured
    (args : NightlyAudit.Args) (env : NightlyAudit.Env) (w : NightlyAudit.World) (ms : List JVal)
    (hsince : args.since = none)
    (hsms : NightlyAudit.collectSms w.twilio
      (NightlyAudit.phoneNums (env.phoneNumbers.getD "")) = Except.ok ms) :
    (NightlyAudit.twilioConfigured env = false →
      NightlyAudit.fetch_twilio_messages env.twilioSid env.twilioToken
        (NightlyAudit.phoneNums (env.phoneNumbers.getD "")) w.twilio = Except.ok ([], false))
    ∧ (NightlyAudit.twilioConfigured env = true →
      NightlyAudit.fetch_twilio_messages env.twilioSid env.twilioToken
        (NightlyAudit.phoneNums (env.phoneNumbers.getD "")) w.twilio = Except.ok (ms, true))
    ∧ ("sms.json" ∈ ((NightlyAudit.run args env w).files.map Prod.fst) ↔
        NightlyAudit.twilioConfigured env = true)
    ∧ (NightlyAudit.twilioConfigured env = true → ms = [] →
        (NightlyAudit.run args env w).files.lookup "sms.json" = some (JVal.arr [])) := by
  have hres : NightlyAudit.resolveSince args w = some w.todayIso := by
    simp [NightlyAudit.resolveSince, hsince]
  refine ⟨?_, ?_, ?_, ?_⟩
  · intro htw
    have hcondT : (!truthy env.twilioSid || !truthy env.twilioToken) = true := by
      cases ha : truthy env.twilioSid <;> cases hb : truthy env.twilioToken <;>
        simp_all [NightlyAudit.twilioConfigured]
    simp [NightlyAudit.fetch_twilio_messages, hcondT]
  · intro htw
    simp only [NightlyAudit.twilioConfigured, Bool.and_eq_true] at htw
    simp [NightlyAudit.fetch_twilio_messages, htw.1, htw.2, hsms]
  · cases htw : NightlyAudit.twilioConfigured env with
    | false =>
      have hcondT : (!truthy env.twilioSid || !truthy env.twilioToken) = true := by
        cases ha : truthy env.twilioSid <;> cases hb : truthy env.twilioToken <;>
          simp_all [NightlyAudit.twilioConfigured]
      have hfetch : NightlyAudit.fetch_twilio_messages env.twilioSid env.twilioToken
          (NightlyAudit.phoneNums (env.phoneNumbers.getD "")) w.twilio =
          Except.ok ([], false) := by
        simp [NightlyAudit.fetch_twilio_messages, hcondT]
      rcases hdev : NightlyAudit.fetch_apple_mdm env.appleMdmUrl env.appleMdmKey w.mdm
        with ⟨dv, dw⟩
      cases dw <;> simp [NightlyAudit.run, hres, hfetch, htw, hdev]
    | true =>
      have hab := htw
      simp only [NightlyAudit.twilioConfigured, Bool.and_eq_true] at hab
      have hfetch : NightlyAudit.fetch_twilio_messages env.twilioSid env.twilioToken
          (NightlyAudit.phoneNums (env.phoneNumbers.getD "")) w.twilio =
          Except.ok (ms, true) := by
        simp [NightlyAudit.fetch_twilio_messages, hab.1, hab.2, hsms]
      simp [NightlyAudit.run, hres, hfetch, htw]
  · intro htw hms
    subst hms
    have hab := htw
    simp only [NightlyAudit.twilioConfigured, Bool.and_eq_true] at hab
    have hfetch : NightlyAudit.fetch_twilio_messages env.twilioSid env.twilioToken
        (NightlyAudit.phoneNums (env.phoneNumbers.getD "")) w.twilio =
        Except.ok ([], true) := by
      simp [NightlyAudit.fetch_twilio_messages, hab.1, hab.2, hsms]
    simp [NightlyAudit.run, hres, hfetch, List.lookup]

/-- Witness for C10: with Twilio configured and zero messages found, sms.json
is written and contains an empty list. -/
theorem sms_artifact_iff_configured_witness :
    ("sms.json" ∈ ((NightlyAudit.run sampleArgs envTwilioMdm worldMdm500).files.map Prod.fst) ↔
        NightlyAudit.twilioConfigured envTwilioMdm = true)
    ∧ (NightlyAudit.run sampleArgs envTwilioMdm worldMdm500).files.lookup "sms.json"
        = some (JVal.arr []) :=
  ⟨(sms_artifact_iff_configured sampleArgs envTwilioMdm worldMdm500 [] rfl rfl).2.2.1,
    (sms_artifact_iff_configured sampleArgs envTwilioMdm worldMdm500 [] rfl rfl).2.2.2
      (by decide) rfl⟩
